import Mathlib

/-!
Shallow embedding of `src/main.py`, the VoidMind / NeuralForge consultation
backend: a FastAPI application with three endpoints (`GET /`, `GET /health`,
`POST /api/consultation`), a module-level email configuration read from the
environment, and two SMTP send helpers (`send_email_notification`,
`send_confirmation_email`).

Modelling conventions:
- Python strings are Lean `String`; every f-string template is reproduced
  byte-for-byte as a concatenation, with Python interpolation holes replaced
  by explicit `++` arguments.
- Each call to `datetime.now()` (formatted with `strftime` or `isoformat`)
  is modelled by a `now : String` parameter, since wall-clock time is an
  input of the program, not computed by it.
- The SMTP relay is an external collaborator; its behaviour during one
  `with smtplib.SMTP(...)` block is an oracle value `RelayResult` saying at
  which step (if any) the relay raises.  The observable network side effects
  of a block are a trace of `SmtpStep`s.
- Python exception flow is modelled with `Except`: the body of a
  `try:` block is a function into `Except`, and the `except:` clause is the
  `match` that catches the error branch.
-/

namespace VoidMind

/-- Pydantic model `ConsultationRequest` (src/main.py lines 29-33):
`name: str`, `email: EmailStr`, `company: Optional[str] = None`,
`message: str`.  The `EmailStr` syntactic validation performed by pydantic
is modelled separately in the endpoint pipeline. -/
structure ConsultationRequest where
  name : String
  email : String
  company : Option String
  message : String
deriving DecidableEq

/-- Module-level email configuration record (the value shape of the
`EMAIL_CONFIG` dict, src/main.py lines 36-42). -/
structure EmailConfig where
  smtp_server : String
  smtp_port : Int
  sender_email : String
  sender_password : String
  receiver_email : String
deriving DecidableEq

/-- Value of a decimal digit character, `none` for any other character.
Codepoints 48 to 57 are the ASCII digits. -/
def digitVal (c : Char) : Option Nat :=
  if 48 ≤ c.toNat ∧ c.toNat ≤ 57 then some (c.toNat - 48) else none

/-- Accumulate a decimal number over a list of digit characters; `none` as
soon as a non-digit appears. -/
def pyIntAux (acc : Nat) : List Char → Option Nat
  | [] => some acc
  | c :: cs =>
    match digitVal c with
    | none => none
    | some d => pyIntAux (acc * 10 + d) cs

/-- Python `int(s)` on a string: an optional sign followed by at least one
decimal digit, `none` (a raised ValueError) otherwise.  Python also strips
surrounding whitespace and allows underscore separators, which no claim
touches. -/
def pyInt (s : String) : Option Int :=
  match s.data with
  | [] => none
  | '-' :: [] => none
  | '-' :: cs => (pyIntAux 0 cs).map fun n => -(n : Int)
  | '+' :: [] => none
  | '+' :: cs => (pyIntAux 0 cs).map fun n => (n : Int)
  | cs => (pyIntAux 0 cs).map fun n => (n : Int)

/-- The `EMAIL_CONFIG` dict built at import time (src/main.py lines 36-42).
`env` models `os.getenv`: `os.getenv(k, d)` is `(env k).getD d`.
`int(os.getenv("SMTP_PORT", "587"))` raises at startup when the string is
not an integer literal, which we model as `none`. -/
def EMAIL_CONFIG (env : String → Option String) : Option EmailConfig :=
  match pyInt ((env "SMTP_PORT").getD "587") with
  | none => none
  | some port =>
    some { smtp_server := (env "SMTP_SERVER").getD "smtp.gmail.com"
         , smtp_port := port
         , sender_email := (env "SENDER_EMAIL").getD "your-email@gmail.com"
         , sender_password := (env "SENDER_PASSWORD").getD "your-app-password"
         , receiver_email := (env "RECEIVER_EMAIL").getD "hello@neuralforge.ai" }

/-- Python truthiness of `x or d` for an optional string `x`: both `None`
and the empty string are falsy, so `consultation.company or 'Not provided'`
yields the default in both cases. -/
def pyOrStr (x : Option String) (d : String) : String :=
  match x with
  | none => d
  | some s => if s = "" then d else s

/-- Plain-text body of the internal notification email (src/main.py
lines 54-65), reproduced byte-for-byte from the f-string template.
`now` stands for `datetime.now().strftime('%Y-%m-%d %H:%M:%S')`. -/
def notification_text (c : ConsultationRequest) (now : String) : String :=
  "\n        New Consultation Request\n        \n        Name: " ++ c.name
    ++ "\n        Email: " ++ c.email
    ++ "\n        Company: " ++ pyOrStr c.company "Not provided"
    ++ "\n        \n        Message:\n        " ++ c.message
    ++ "\n        \n        Received at: " ++ now
    ++ "\n        "

/-- HTML body of the internal notification email (src/main.py lines 67-92),
reproduced byte-for-byte from the f-string template. -/
def notification_html (c : ConsultationRequest) (now : String) : String :=
  "\n        <html>\n          <body style=\"font-family: Arial, sans-serif; line-height: 1.6; color: #333;\">\n            <div style=\"max-width: 600px; margin: 0 auto; padding: 20px;\">\n              <h2 style=\"color: #667eea; border-bottom: 2px solid #667eea; padding-bottom: 10px;\">\n                New Consultation Request\n              </h2>\n              \n              <div style=\"background-color: #f8f9fa; padding: 20px; border-radius: 8px; margin: 20px 0;\">\n                <p><strong>Name:</strong> " ++ c.name
    ++ "</p>\n                <p><strong>Email:</strong> <a href=\"mailto:" ++ c.email
    ++ "\">" ++ c.email
    ++ "</a></p>\n                <p><strong>Company:</strong> " ++ pyOrStr c.company "Not provided"
    ++ "</p>\n              </div>\n              \n              <div style=\"background-color: #ffffff; padding: 20px; border: 1px solid #e9ecef; border-radius: 8px;\">\n                <h3 style=\"color: #495057; margin-top: 0;\">Message:</h3>\n                <p style=\"white-space: pre-wrap;\">" ++ c.message
    ++ "</p>\n              </div>\n              \n              <div style=\"margin-top: 20px; padding-top: 20px; border-top: 1px solid #e9ecef; color: #6c757d; font-size: 14px;\">\n                <p>Received at: " ++ now
    ++ "</p>\n              </div>\n            </div>\n          </body>\n        </html>\n        "

/-- HTML body of the user confirmation email (src/main.py lines 123-154),
reproduced byte-for-byte from the f-string template (apostrophes written as
the escape \x27). -/
def confirmation_html (c : ConsultationRequest) : String :=
  "\n        <html>\n          <body style=\"font-family: Arial, sans-serif; line-height: 1.6; color: #333;\">\n            <div style=\"max-width: 600px; margin: 0 auto; padding: 20px;\">\n              <div style=\"text-align: center; margin-bottom: 30px;\">\n                <h1 style=\"color: #667eea; margin: 0;\">Neural<span style=\"color: #764ba2;\">Forge</span></h1>\n                <p style=\"color: #6c757d; margin-top: 5px;\">Intelligence at Scale</p>\n              </div>\n              \n              <h2 style=\"color: #495057;\">Thank you for reaching out, " ++ c.name
    ++ "!</h2>\n              \n              <p>We\x27ve received your consultation request and appreciate your interest in NeuralForge AI solutions.</p>\n              \n              <div style=\"background-color: #f8f9fa; padding: 20px; border-radius: 8px; margin: 20px 0;\">\n                <h3 style=\"color: #667eea; margin-top: 0;\">What happens next?</h3>\n                <ul style=\"color: #495057;\">\n                  <li>Our team will review your request within 24 hours</li>\n                  <li>A specialist will reach out to schedule a consultation</li>\n                  <li>We\x27ll prepare a customized AI solution proposal for your needs</li>\n                </ul>\n              </div>\n              \n              <p>In the meantime, feel free to explore our website for more information about our AI and data science services.</p>\n              \n              <div style=\"margin-top: 40px; padding-top: 20px; border-top: 1px solid #e9ecef; text-align: center; color: #6c757d; font-size: 14px;\">\n                <p>© 2024 NeuralForge AI. All rights reserved.</p>\n                <p>This is an automated response. Please do not reply to this email.</p>\n              </div>\n            </div>\n          </body>\n        </html>\n        "

/-- One MIME part, `MIMEText(content, subtype)`. -/
structure MimePart where
  content : String
  subtype : String
deriving DecidableEq

/-- A composed outgoing email: the `MIMEMultipart("alternative")` message
with its `Subject`, `From` and `To` headers and attached parts.
`fromAddr` and `toAddr` model `msg["From"]` and `msg["To"]`. -/
structure EmailMessage where
  subject : String
  fromAddr : String
  toAddr : String
  parts : List MimePart
deriving DecidableEq

/-- The internal notification message composed by `send_email_notification`
(src/main.py lines 48-100): subject from the requester name, `From` the
configured sender, `To` the configured receiver, plain part then HTML part. -/
def notificationMessage (cfg : EmailConfig) (c : ConsultationRequest) (now : String) :
    EmailMessage :=
  { subject := "New Consultation Request from " ++ c.name
  , fromAddr := cfg.sender_email
  , toAddr := cfg.receiver_email
  , parts := [ { content := notification_text c now, subtype := "plain" }
             , { content := notification_html c now, subtype := "html" } ] }

/-- The confirmation message composed by `send_confirmation_email`
(src/main.py lines 118-157): fixed subject, `From` the configured sender,
`To` the submitter address, a single HTML part. -/
def confirmationMessage (cfg : EmailConfig) (c : ConsultationRequest) : EmailMessage :=
  { subject := "Thank you for your consultation request - NeuralForge AI"
  , fromAddr := cfg.sender_email
  , toAddr := c.email
  , parts := [ { content := confirmation_html c, subtype := "html" } ] }

/-- Oracle for the behaviour of the mail relay during one
`with smtplib.SMTP(...)` block: either every call succeeds, or the relay
raises at the constructor (connect), at `starttls()`, at `login(...)`, or at
`send_message(...)`. -/
inductive RelayResult where
  | success
  | connectError
  | starttlsError
  | authError
  | sendError
deriving DecidableEq

/-- Observable network side effects of an SMTP block: one step per
`smtplib` call that reaches the wire.  `close` is the `quit` issued by the
context manager on exit. -/
inductive SmtpStep where
  | connect (server : String) (port : Int)
  | starttls
  | login (user : String) (password : String)
  | sendMsg (msg : EmailMessage)
  | close
deriving DecidableEq

/-- The exception raised by a failing SMTP block, by failing step. -/
inductive SmtpError where
  | connectFailed
  | starttlsFailed
  | authFailed
  | sendFailed
deriving DecidableEq

/-- One `with smtplib.SMTP(server, port) as server: starttls; login; send`
block (src/main.py lines 103-106 and 159-162): returns `ok` or the raised
error, together with the trace of steps performed.  The constructor
connects; once the block is entered, the context manager closes the
connection on every exit path, including exceptions. -/
def smtpSend (cfg : EmailConfig) (msg : EmailMessage) (r : RelayResult) :
    Except SmtpError Unit × List SmtpStep :=
  match r with
  | RelayResult.success =>
      (Except.ok (),
       [SmtpStep.connect cfg.smtp_server cfg.smtp_port, SmtpStep.starttls,
        SmtpStep.login cfg.sender_email cfg.sender_password,
        SmtpStep.sendMsg msg, SmtpStep.close])
  | RelayResult.connectError =>
      (Except.error SmtpError.connectFailed,
       [SmtpStep.connect cfg.smtp_server cfg.smtp_port])
  | RelayResult.starttlsError =>
      (Except.error SmtpError.starttlsFailed,
       [SmtpStep.connect cfg.smtp_server cfg.smtp_port, SmtpStep.starttls, SmtpStep.close])
  | RelayResult.authError =>
      (Except.error SmtpError.authFailed,
       [SmtpStep.connect cfg.smtp_server cfg.smtp_port, SmtpStep.starttls,
        SmtpStep.login cfg.sender_email cfg.sender_password, SmtpStep.close])
  | RelayResult.sendError =>
      (Except.error SmtpError.sendFailed,
       [SmtpStep.connect cfg.smtp_server cfg.smtp_port, SmtpStep.starttls,
        SmtpStep.login cfg.sender_email cfg.sender_password,
        SmtpStep.sendMsg msg, SmtpStep.close])

/-- Body of the `try:` block of `send_email_notification` (src/main.py
lines 46-109): compose the notification message (pure, cannot raise) and
run the SMTP block. -/
def send_email_notification_attempt (cfg : EmailConfig) (c : ConsultationRequest)
    (now : String) (r : RelayResult) : Except SmtpError Unit × List SmtpStep :=
  smtpSend cfg (notificationMessage cfg c now) r

/-- `send_email_notification` (src/main.py lines 44-113): the
`except Exception` clause catches every error from the body and turns it
into `False`; success returns `True`. -/
def send_email_notification (cfg : EmailConfig) (c : ConsultationRequest)
    (now : String) (r : RelayResult) : Bool × List SmtpStep :=
  match send_email_notification_attempt cfg c now r with
  | (Except.ok _, tr) => (true, tr)
  | (Except.error _, tr) => (false, tr)

/-- Body of the `try:` block of `send_confirmation_email` (src/main.py
lines 117-165). -/
def send_confirmation_email_attempt (cfg : EmailConfig) (c : ConsultationRequest)
    (r : RelayResult) : Except SmtpError Unit × List SmtpStep :=
  smtpSend cfg (confirmationMessage cfg c) r

/-- `send_confirmation_email` (src/main.py lines 115-169): catch-all
`except Exception` returns `False`, success returns `True`. -/
def send_confirmation_email (cfg : EmailConfig) (c : ConsultationRequest)
    (r : RelayResult) : Bool × List SmtpStep :=
  match send_confirmation_email_attempt cfg c r with
  | (Except.ok _, tr) => (true, tr)
  | (Except.error _, tr) => (false, tr)

/-- The JSON body returned by `submit_consultation` on success
(src/main.py lines 206-210). -/
structure SuccessResponse where
  success : Bool
  message : String
  timestamp : String
deriving DecidableEq

/-- A Python exception value as observable inside `submit_consultation`:
the only exception the embedded body can raise is the
`HTTPException(status_code, detail)` of the both-sends-failed branch. -/
inductive PyExn where
  | httpException (statusCode : Int) (detail : String)
deriving DecidableEq

/-- Detail string of the `HTTPException` raised when both sends failed
(src/main.py line 203). -/
def bothFailedDetail : String :=
  "Failed to process consultation request. Please try again later."

/-- Detail string of the `HTTPException` raised by the handler-level
`except Exception` clause (src/main.py line 216). -/
def genericErrorDetail : String :=
  "An error occurred while processing your request. Please try again."

/-- Message field of the success response (src/main.py line 208). -/
def successMessage : String :=
  "Your consultation request has been received. We\x27ll be in touch soon!"

/-- Body of the `try:` block of `submit_consultation` (src/main.py
lines 191-210): run both sends in order, then either raise
`HTTPException(500, bothFailedDetail)` when neither succeeded or return the
success body.  `r1` and `r2` are the relay behaviours of the notification
and confirmation transactions respectively. -/
def submit_consultation_body (cfg : EmailConfig) (c : ConsultationRequest)
    (now : String) (r1 r2 : RelayResult) :
    Except PyExn SuccessResponse × List SmtpStep :=
  let n := send_email_notification cfg c now r1
  let k := send_confirmation_email cfg c r2
  if !n.fst && !k.fst then
    (Except.error (PyExn.httpException 500 bothFailedDetail), n.snd ++ k.snd)
  else
    (Except.ok { success := true, message := successMessage, timestamp := now },
     n.snd ++ k.snd)

/-- What the HTTP caller of `POST /api/consultation` observes: the success
body, or an `HTTPException` status and detail. -/
inductive HandlerResponse where
  | ok (r : SuccessResponse)
  | httpError (statusCode : Int) (detail : String)
deriving DecidableEq

/-- `submit_consultation` (src/main.py lines 188-217): the handler-level
`except Exception as e` catches every exception raised inside the `try:`
block — including the `HTTPException` of the both-sends-failed branch,
since FastAPI HTTPException subclasses Exception — and re-raises
`HTTPException(500, genericErrorDetail)`. -/
def submit_consultation (cfg : EmailConfig) (c : ConsultationRequest)
    (now : String) (r1 r2 : RelayResult) : HandlerResponse × List SmtpStep :=
  match submit_consultation_body cfg c now r1 r2 with
  | (Except.ok r, tr) => (HandlerResponse.ok r, tr)
  | (Except.error _, tr) => (HandlerResponse.httpError 500 genericErrorDetail, tr)

/-- The raw JSON body of a `POST /api/consultation` request, before pydantic
validation. -/
structure RawConsultation where
  name : String
  email : String
  company : Option String
  message : String
deriving DecidableEq

/-- Modelled from the spec: the pydantic `EmailStr` validation error detail.
The validator itself lives in the pydantic library, outside this
repository; the spec says only that a malformed email address is "rejected
at input-validation time before any send is attempted". -/
def emailValidationDetail : String := "value is not a valid email address"

/-- Modelled from the spec: pydantic validation of the request body into a
`ConsultationRequest` (src/main.py line 189 takes an already-validated
model).  The `EmailStr` syntax check — library code not in this repository —
is abstracted as the boolean predicate `validEmail`; the spec requires only
that a syntactically invalid email is rejected before processing. -/
def validateConsultation (validEmail : String → Bool) (raw : RawConsultation) :
    Except String ConsultationRequest :=
  if validEmail raw.email then
    Except.ok { name := raw.name, email := raw.email
              , company := raw.company, message := raw.message }
  else
    Except.error emailValidationDetail

/-- Outcome of the full endpoint pipeline: a framework-level validation
rejection (no handler code ran) or the handler response. -/
inductive EndpointResult where
  | validationError (detail : String)
  | response (r : HandlerResponse)
deriving DecidableEq

/-- The full `POST /api/consultation` pipeline: FastAPI/pydantic validate
the body first; only a validated `ConsultationRequest` reaches
`submit_consultation`.  The second component is the trace of SMTP network
side effects of the whole request. -/
def post_api_consultation (validEmail : String → Bool) (cfg : EmailConfig)
    (raw : RawConsultation) (now : String) (r1 r2 : RelayResult) :
    EndpointResult × List SmtpStep :=
  match validateConsultation validEmail raw with
  | Except.error d => (EndpointResult.validationError d, [])
  | Except.ok c =>
    let h := submit_consultation cfg c now r1 r2
    (EndpointResult.response h.fst, h.snd)

/-- The JSON body returned by `GET /health`. -/
structure HealthResponse where
  status : String
  timestamp : String
deriving DecidableEq

/-- `health_check` (src/main.py lines 183-186); `now` stands for
`datetime.now().isoformat()`, the ISO-8601 timestamp taken at call time. -/
def health_check (now : String) : HealthResponse :=
  { status := "healthy", timestamp := now }

/-- Substring containment on strings: `t` occurs contiguously in `s`. -/
def containsStr (s t : String) : Prop :=
  ∃ a b : String, s = a ++ (t ++ b)

/-- Concrete request with `company` omitted, used to witness theorems. -/
def reqNone : ConsultationRequest :=
  { name := "Jane Roe", email := "jane@example.org", company := none
  , message := "Hello" }

/-- Concrete request with `company="Acme"`, used to witness theorems. -/
def reqAcme : ConsultationRequest :=
  { name := "Jane Roe", email := "jane@example.org", company := some "Acme"
  , message := "Hello" }

/-- Concrete configuration used to witness theorems. -/
def cfgW : EmailConfig :=
  { smtp_server := "smtp.gmail.com", smtp_port := 587
  , sender_email := "sender@example.org", sender_password := "pw"
  , receiver_email := "hello@neuralforge.ai" }

/-- Concrete raw request with a malformed email, used to witness theorems. -/
def rawBad : RawConsultation :=
  { name := "Jane Roe", email := "not-an-email", company := none
  , message := "Hello" }

/-! Helper lemmas about string concatenation and substring containment. -/

theorem string_append_assoc (a b c : String) : a ++ b ++ c = a ++ (b ++ c) :=
  String.ext (List.append_assoc a.data b.data c.data)

theorem string_append_nil (t : String) : t ++ "" = t :=
  String.ext (List.append_nil t.data)

theorem containsStr_last (y t : String) : containsStr (y ++ t) t :=
  ⟨y, "", by rw [string_append_nil]⟩

theorem containsStr_extend (x y t : String) (h : containsStr x t) :
    containsStr (x ++ y) t := by
  obtain ⟨a, b, rfl⟩ := h
  exact ⟨a, b ++ y, by rw [string_append_assoc, string_append_assoc]⟩

theorem notification_text_contains_company (c : ConsultationRequest) (now : String) :
    containsStr (notification_text c now) (pyOrStr c.company "Not provided") := by
  unfold notification_text
  apply containsStr_extend
  apply containsStr_extend
  apply containsStr_extend
  apply containsStr_extend
  apply containsStr_extend
  exact containsStr_last _ _

theorem notification_html_contains_company (c : ConsultationRequest) (now : String) :
    containsStr (notification_html c now) (pyOrStr c.company "Not provided") := by
  unfold notification_html
  apply containsStr_extend
  apply containsStr_extend
  apply containsStr_extend
  apply containsStr_extend
  apply containsStr_extend
  exact containsStr_last _ _

theorem submit_result_cases (cfg : EmailConfig) (c : ConsultationRequest)
    (now : String) (r1 r2 : RelayResult) :
    (submit_consultation cfg c now r1 r2).fst =
      HandlerResponse.ok { success := true, message := successMessage, timestamp := now } ∨
    (submit_consultation cfg c now r1 r2).fst =
      HandlerResponse.httpError 500 genericErrorDetail := by
  cases r1 <;> cases r2 <;> first
    | exact Or.inl rfl
    | exact Or.inr rfl

/-! Claim theorems. -/

/-- C1: for every valid ConsultationRequest, `POST /api/consultation`
returns a success response if and only if at least one of the two email
sends succeeds, and returns an HTTP 500 error exactly when both sends
fail.  (In the embedding, message composition is pure and cannot raise, so
both-sends-failed is the only error cause.) -/
theorem consultation_success_iff (cfg : EmailConfig) (c : ConsultationRequest)
    (now : String) (r1 r2 : RelayResult) :
    ((∃ resp, (submit_consultation cfg c now r1 r2).fst = HandlerResponse.ok resp) ↔
      (r1 = RelayResult.success ∨ r2 = RelayResult.success)) ∧
    ((∃ d, (submit_consultation cfg c now r1 r2).fst = HandlerResponse.httpError 500 d) ↔
      ¬(r1 = RelayResult.success ∨ r2 = RelayResult.success)) := by
  cases r1 <;> cases r2 <;>
    simp [submit_consultation, submit_consultation_body,
      send_email_notification, send_confirmation_email,
      send_email_notification_attempt, send_confirmation_email_attempt, smtpSend]

/-- C2: the handler attempts both sends independently: the submit trace is
always the notification attempt trace followed by the confirmation attempt
trace, each attempt is a function of its own relay behaviour only, each
attempt reaches the wire (its trace starts with a connect step) whatever
the other relay outcome is, and each send records its outcome as a boolean. -/
theorem sends_independent (cfg : EmailConfig) (c : ConsultationRequest)
    (now : String) (r1 r2 : RelayResult) :
    (submit_consultation cfg c now r1 r2).snd =
      (send_email_notification cfg c now r1).snd ++
      (send_confirmation_email cfg c r2).snd ∧
    (∃ t1, (send_email_notification cfg c now r1).snd =
      SmtpStep.connect cfg.smtp_server cfg.smtp_port :: t1) ∧
    (∃ t2, (send_confirmation_email cfg c r2).snd =
      SmtpStep.connect cfg.smtp_server cfg.smtp_port :: t2) := by
  refine ⟨?_, ?_, ?_⟩
  · cases r1 <;> cases r2 <;> rfl
  · cases r1 <;> exact ⟨_, rfl⟩
  · cases r2 <;> exact ⟨_, rfl⟩

/-- C3: an input whose email field fails syntactic validation is rejected
by the validation layer before the handler body runs: the endpoint result
is a validation error and the SMTP trace of the whole request is empty. -/
theorem invalid_email_rejected (validEmail : String → Bool) (cfg : EmailConfig)
    (raw : RawConsultation) (now : String) (r1 r2 : RelayResult)
    (h : validEmail raw.email = false) :
    post_api_consultation validEmail cfg raw now r1 r2 =
      (EndpointResult.validationError emailValidationDetail, []) := by
  simp [post_api_consultation, validateConsultation, h]

/-- Witness for C3 at a concrete rejecting validator and request. -/
theorem invalid_email_rejected_witness :
    (fun _ : String => false) rawBad.email = false ∧
    post_api_consultation (fun _ => false) cfgW rawBad "ts"
      RelayResult.success RelayResult.success =
      (EndpointResult.validationError emailValidationDetail, []) :=
  ⟨rfl, invalid_email_rejected (fun _ => false) cfgW rawBad "ts"
    RelayResult.success RelayResult.success rfl⟩

/-- C4: in both rendered internal-notification bodies (plain text and
HTML), an omitted company renders the literal placeholder "Not provided",
and company="Acme" renders "Acme". -/
theorem submitted_company_rendered (c : ConsultationRequest) (now : String) :
    (c.company = none →
      containsStr (notification_text c now) "Not provided" ∧
      containsStr (notification_html c now) "Not provided") ∧
    (c.company = some "Acme" →
      containsStr (notification_text c now) "Acme" ∧
      containsStr (notification_html c now) "Acme") := by
  have h1 := notification_text_contains_company c now
  have h2 := notification_html_contains_company c now
  constructor
  · intro h
    rw [h] at h1 h2
    simp only [pyOrStr] at h1 h2
    exact ⟨h1, h2⟩
  · intro h
    rw [h] at h1 h2
    simp only [pyOrStr, if_neg (by decide : ¬("Acme" = ""))] at h1 h2
    exact ⟨h1, h2⟩

/-- Witness for C4 at concrete requests with company omitted and with
company="Acme". -/
theorem submitted_company_rendered_witness :
    reqNone.company = none ∧ reqAcme.company = some "Acme" ∧
    containsStr (notification_text reqNone "ts") "Not provided" ∧
    containsStr (notification_html reqNone "ts") "Not provided" ∧
    containsStr (notification_text reqAcme "ts") "Acme" ∧
    containsStr (notification_html reqAcme "ts") "Acme" :=
  ⟨rfl, rfl,
   ((submitted_company_rendered reqNone "ts").1 rfl).1,
   ((submitted_company_rendered reqNone "ts").1 rfl).2,
   ((submitted_company_rendered reqAcme "ts").2 rfl).1,
   ((submitted_company_rendered reqAcme "ts").2 rfl).2⟩

/-- C5: whenever `POST /api/consultation` answers with an HTTP error, the
status is 500 and the detail is the one fixed generic string, independent
of which send failed and of the relay failure modes. -/
theorem error_detail_generic (cfg : EmailConfig) (c : ConsultationRequest)
    (now : String) (r1 r2 : RelayResult) (code : Int) (d : String)
    (h : (submit_consultation cfg c now r1 r2).fst = HandlerResponse.httpError code d) :
    code = 500 ∧ d = genericErrorDetail := by
  rcases submit_result_cases cfg c now r1 r2 with h2 | h2 <;> rw [h2] at h
  · exact HandlerResponse.noConfusion h
  · injection h with hc hd
    exact ⟨hc.symm, hd.symm⟩

/-- Witness for C5 at a both-sends-failed run. -/
theorem error_detail_generic_witness :
    (submit_consultation cfgW reqNone "ts"
      RelayResult.connectError RelayResult.connectError).fst =
      HandlerResponse.httpError 500 genericErrorDetail ∧
    ((500 : Int) = 500 ∧ genericErrorDetail = genericErrorDetail) :=
  ⟨rfl, error_detail_generic cfgW reqNone "ts"
    RelayResult.connectError RelayResult.connectError 500 genericErrorDetail rfl⟩

/-- C6: when both sends fail, the `try:` body raises
`HTTPException(500, bothFailedDetail)`, and that exception is caught by the
handler-level `except Exception` clause, so the caller observes status 500
with the generic detail; the both-sends-failed detail never reaches the
caller. -/
theorem both_failed_exception_masked (cfg : EmailConfig) (c : ConsultationRequest)
    (now : String) (r1 r2 : RelayResult)
    (h1 : r1 ≠ RelayResult.success) (h2 : r2 ≠ RelayResult.success) :
    (submit_consultation_body cfg c now r1 r2).fst =
      Except.error (PyExn.httpException 500 bothFailedDetail) ∧
    (submit_consultation cfg c now r1 r2).fst =
      HandlerResponse.httpError 500 genericErrorDetail := by
  cases r1 <;> cases r2 <;> first
    | exact absurd rfl h1
    | exact absurd rfl h2
    | exact ⟨rfl, rfl⟩

/-- Witness for C6 at a both-sends-failed run. -/
theorem both_failed_exception_masked_witness :
    RelayResult.authError ≠ RelayResult.success ∧
    RelayResult.sendError ≠ RelayResult.success ∧
    ((submit_consultation_body cfgW reqNone "ts"
        RelayResult.authError RelayResult.sendError).fst =
      Except.error (PyExn.httpException 500 bothFailedDetail) ∧
     (submit_consultation cfgW reqNone "ts"
        RelayResult.authError RelayResult.sendError).fst =
      HandlerResponse.httpError 500 genericErrorDetail) :=
  ⟨by decide, by decide,
   both_failed_exception_masked cfgW reqNone "ts"
     RelayResult.authError RelayResult.sendError (by decide) (by decide)⟩

/-- C7: `GET /health` always returns a body whose status field is the
string "healthy" together with the call-time timestamp (the
`datetime.now().isoformat()` value, modelled by the parameter `now`). -/
theorem health_check_healthy (now : String) :
    (health_check now).status = "healthy" ∧ (health_check now).timestamp = now :=
  ⟨rfl, rfl⟩

/-- C8: the startup configuration is a function of exactly the five named
environment variables: SMTP_SERVER defaults to "smtp.gmail.com", SMTP_PORT
defaults to 587, RECEIVER_EMAIL defaults to "hello@neuralforge.ai", and
SENDER_EMAIL / SENDER_PASSWORD are read from the environment. -/
theorem email_config_spec (env : String → Option String) :
    (∀ cfg, EMAIL_CONFIG env = some cfg →
      cfg.smtp_server = (env "SMTP_SERVER").getD "smtp.gmail.com" ∧
      cfg.receiver_email = (env "RECEIVER_EMAIL").getD "hello@neuralforge.ai" ∧
      some cfg.smtp_port = pyInt ((env "SMTP_PORT").getD "587") ∧
      cfg.sender_email = (env "SENDER_EMAIL").getD "your-email@gmail.com" ∧
      cfg.sender_password = (env "SENDER_PASSWORD").getD "your-app-password") ∧
    EMAIL_CONFIG (fun _ => none) = some
      { smtp_server := "smtp.gmail.com", smtp_port := 587
      , sender_email := "your-email@gmail.com"
      , sender_password := "your-app-password"
      , receiver_email := "hello@neuralforge.ai" } := by
  constructor
  · intro cfg h
    unfold EMAIL_CONFIG at h
    cases hp : pyInt ((env "SMTP_PORT").getD "587") with
    | none => rw [hp] at h; exact Option.noConfusion h
    | some port =>
      rw [hp] at h
      injection h with h3
      subst h3
      exact ⟨rfl, rfl, rfl, rfl, rfl⟩
  · rfl

/-- Witness for C8 at the empty environment. -/
theorem email_config_spec_witness :
    EMAIL_CONFIG (fun _ => none) = some
      { smtp_server := "smtp.gmail.com", smtp_port := 587
      , sender_email := "your-email@gmail.com"
      , sender_password := "your-app-password"
      , receiver_email := "hello@neuralforge.ai" } ∧
    (({ smtp_server := "smtp.gmail.com", smtp_port := 587
      , sender_email := "your-email@gmail.com"
      , sender_password := "your-app-password"
      , receiver_email := "hello@neuralforge.ai" } : EmailConfig).smtp_server =
        ((fun _ : String => (none : Option String)) "SMTP_SERVER").getD "smtp.gmail.com") :=
  ⟨(email_config_spec (fun _ => none)).2,
   ((email_config_spec (fun _ => none)).1 _ rfl).1⟩

/-- C9: the internal notification is addressed to the configured receiver,
the confirmation is addressed to the submitter, and (when both relays
accept) the request trace is exactly two separate complete
connect/starttls/login/send/close cycles with no connection reuse. -/
theorem two_separate_smtp_sessions (cfg : EmailConfig) (c : ConsultationRequest)
    (now : String) :
    (notificationMessage cfg c now).toAddr = cfg.receiver_email ∧
    (confirmationMessage cfg c).toAddr = c.email ∧
    (submit_consultation cfg c now RelayResult.success RelayResult.success).snd =
      [SmtpStep.connect cfg.smtp_server cfg.smtp_port, SmtpStep.starttls,
       SmtpStep.login cfg.sender_email cfg.sender_password,
       SmtpStep.sendMsg (notificationMessage cfg c now), SmtpStep.close] ++
      [SmtpStep.connect cfg.smtp_server cfg.smtp_port, SmtpStep.starttls,
       SmtpStep.login cfg.sender_email cfg.sender_password,
       SmtpStep.sendMsg (confirmationMessage cfg c), SmtpStep.close] :=
  ⟨rfl, rfl, rfl⟩

/-- C10: both send helpers are total at their interface: for every request
and every relay behaviour they return a boolean — true exactly on relay
success, false on every relay failure mode — and, being functions into
`Bool × List SmtpStep` rather than `Except`, never propagate an exception
to their caller. -/
theorem send_functions_total (cfg : EmailConfig) (c : ConsultationRequest)
    (now : String) (r : RelayResult) :
    (send_email_notification cfg c now r).fst = decide (r = RelayResult.success) ∧
    (send_confirmation_email cfg c r).fst = decide (r = RelayResult.success) := by
  cases r <;> exact ⟨rfl, rfl⟩

end VoidMind
